import Mathlib

/-!
Verification of the issuance core of `cursed` (`src/cursed/web.go`): the
`webHandler` pipeline (proxy basic-auth check, parameter extraction, key
parsing and fingerprinting, key-id construction, request logging, parameter
validation, public-key age check, certificate-option construction, signing)
and the `validateHTTPParams` policy validator.

The Go code is embedded shallowly: machine words are `Nat` reduced modulo
`2^32` where the Go code overflows, strings are Lean `String`s, byte blobs
are `List Nat` (each entry `< 256`), and every external call the handler
makes (the ssh library's `ParseAuthorizedKey`, the signer, the two
`time.Now()` reads, `time.Format`, and the `checkPubKeyAge` replay store
whose body lives outside the file under verification) is a field of an
explicit environment record, so the handler itself is a total pure function
from (config, environment, request) to an output record that carries the
HTTP result, the log lines in order, and trace flags recording which
pipeline stages ran.

`ssh.FingerprintLegacyMD5` is embedded concretely: the golang.org/x/crypto
ssh package documents it as the colon-separated hex MD5 digest of the
marshaled key, so MD5 (RFC 1321) is implemented here over byte lists and
validated against the RFC test vectors.
-/

set_option maxRecDepth 8192

/-! ## MD5 (RFC 1321), over byte lists, words as `Nat % 2^32` -/

/-- Rotate a 32-bit word (a `Nat < 2^32`) left by `n` bits. -/
def rotl32 (x n : Nat) : Nat :=
  ((x <<< n) ||| (x >>> (32 - n))) % 4294967296

/-- Bitwise complement of a 32-bit word. -/
def not32 (x : Nat) : Nat := x ^^^ 4294967295

/-- The 64 MD5 sine-derived round constants `K[i] = ⌊2^32·|sin(i+1)|⌋`. -/
def md5K : List Nat :=
  [0xd76aa478, 0xe8c7b756, 0x242070db, 0xc1bdceee,
   0xf57c0faf, 0x4787c62a, 0xa8304613, 0xfd469501,
   0x698098d8, 0x8b44f7af, 0xffff5bb1, 0x895cd7be,
   0x6b901122, 0xfd987193, 0xa679438e, 0x49b40821,
   0xf61e2562, 0xc040b340, 0x265e5a51, 0xe9b6c7aa,
   0xd62f105d, 0x02441453, 0xd8a1e681, 0xe7d3fbc8,
   0x21e1cde6, 0xc33707d6, 0xf4d50d87, 0x455a14ed,
   0xa9e3e905, 0xfcefa3f8, 0x676f02d9, 0x8d2a4c8a,
   0xfffa3942, 0x8771f681, 0x6d9d6122, 0xfde5380c,
   0xa4beea44, 0x4bdecfa9, 0xf6bb4b60, 0xbebfbc70,
   0x289b7ec6, 0xeaa127fa, 0xd4ef3085, 0x04881d05,
   0xd9d4d039, 0xe6db99e5, 0x1fa27cf8, 0xc4ac5665,
   0xf4292244, 0x432aff97, 0xab9423a7, 0xfc93a039,
   0x655b59c3, 0x8f0ccc92, 0xffeff47d, 0x85845dd1,
   0x6fa87e4f, 0xfe2ce6e0, 0xa3014314, 0x4e0811a1,
   0xf7537e82, 0xbd3af235, 0x2ad7d2bb, 0xeb86d391]

/-- The 64 per-round left-rotation amounts. -/
def md5S : List Nat :=
  [7, 12, 17, 22, 7, 12, 17, 22, 7, 12, 17, 22, 7, 12, 17, 22,
   5,  9, 14, 20, 5,  9, 14, 20, 5,  9, 14, 20, 5,  9, 14, 20,
   4, 11, 16, 23, 4, 11, 16, 23, 4, 11, 16, 23, 4, 11, 16, 23,
   6, 10, 15, 21, 6, 10, 15, 21, 6, 10, 15, 21, 6, 10, 15, 21]

/-- One MD5 round `i` (0-based) on state `(A,B,C,D)` with message words `M`. -/
def md5Round (M : List Nat) (st : Nat × Nat × Nat × Nat) (i : Nat) :
    Nat × Nat × Nat × Nat :=
  let (A, B, C, D) := st
  let Fg : Nat × Nat :=
    if i < 16 then ((B &&& C) ||| (not32 B &&& D), i)
    else if i < 32 then ((D &&& B) ||| (not32 D &&& C), (5 * i + 1) % 16)
    else if i < 48 then (B ^^^ C ^^^ D, (3 * i + 5) % 16)
    else (C ^^^ (B ||| not32 D), (7 * i) % 16)
  let F := (Fg.1 + A + md5K.getD i 0 + M.getD Fg.2 0) % 4294967296
  (D, (B + rotl32 F (md5S.getD i 0)) % 4294967296, B, C)

/-- Assemble the 16 little-endian 32-bit message words of one 64-byte block. -/
def md5Words (block : List Nat) : List Nat :=
  (List.range 16).map fun j =>
    block.getD (4 * j) 0 + 256 * block.getD (4 * j + 1) 0 +
      65536 * block.getD (4 * j + 2) 0 + 16777216 * block.getD (4 * j + 3) 0

/-- Compress one 64-byte block into the running digest state. -/
def md5Block (h : Nat × Nat × Nat × Nat) (block : List Nat) :
    Nat × Nat × Nat × Nat :=
  let M := md5Words block
  let r := (List.range 64).foldl (md5Round M) h
  ((h.1 + r.1) % 4294967296, (h.2.1 + r.2.1) % 4294967296,
   (h.2.2.1 + r.2.2.1) % 4294967296, (h.2.2.2 + r.2.2.2) % 4294967296)

/-- Fold the compression function over a padded message, 64 bytes at a time.
Structural recursion on a fuel bound (any fuel at least the list length is
enough, since every step consumes 64 bytes). -/
def md5Blocks : Nat → Nat × Nat × Nat × Nat → List Nat → Nat × Nat × Nat × Nat
  | 0, h, _ => h
  | _, h, [] => h
  | fuel + 1, h, b :: rest =>
      md5Blocks fuel (md5Block h ((b :: rest).take 64)) ((b :: rest).drop 64)

/-- MD5 padding: append `0x80`, zero-fill to 56 mod 64, then the bit length
as eight little-endian bytes. -/
def md5Pad (msg : List Nat) : List Nat :=
  let n := msg.length
  let zeros := (64 + 55 - n % 64) % 64
  msg ++ [128] ++ List.replicate zeros 0 ++
    (List.range 8).map fun i => (8 * n) >>> (8 * i) % 256

/-- The 16 digest bytes of a message: state words serialized little-endian. -/
def md5 (msg : List Nat) : List Nat :=
  let p := md5Pad msg
  let (a, b, c, d) := md5Blocks p.length (0x67452301, 0xefcdab89, 0x98badcfe, 0x10325476) p
  ((List.range 4).map fun i => a >>> (8 * i) % 256) ++
    ((List.range 4).map fun i => b >>> (8 * i) % 256) ++
    ((List.range 4).map fun i => c >>> (8 * i) % 256) ++
    ((List.range 4).map fun i => d >>> (8 * i) % 256)

/-- Lowercase hex digit for a value `< 16`. -/
def hexDigit (n : Nat) : Char :=
  "0123456789abcdef".toList.getD n '0'

/-- Two lowercase hex digits of one byte. -/
def hexByte (b : Nat) : String :=
  String.mk [hexDigit (b / 16), hexDigit (b % 16)]

/-- Lowercase hex of a byte list. -/
def hexBytes (bs : List Nat) : String :=
  String.join (bs.map hexByte)

/-- The bytes of a string, for stating the RFC 1321 test vectors. -/
def strBytes (s : String) : List Nat :=
  s.toList.map Char.toNat

/-! ## The ssh library calls used by `web.go`

`ssh.FingerprintLegacyMD5` is fixed by the library: the MD5 digest of the
marshaled key, rendered as colon-separated lowercase hex byte pairs.
`ssh.ParseAuthorizedKey` (full authorized-keys text parsing and base64
decoding) is external to this repository and is kept opaque: the
environment supplies it as a function from the raw key text to the
marshaled key bytes, or `none` on a parse error. -/

/-- `ssh.FingerprintLegacyMD5`: colon-separated hex MD5 of the marshaled key. -/
def fingerprintLegacyMD5 (marshaled : List Nat) : String :=
  String.intercalate ":" ((md5 marshaled).map hexByte)

/-- `ssh.UserCert`, the user-certificate type constant. -/
def UserCert : Nat := 1

/-! ## Data model of `web.go` -/

/-- The `httpParams` struct of `web.go`. -/
structure httpParams where
  bastionIP : String
  bastionUser : String
  cmd : String
  key : String
  remoteUser : String
  userIP : String
deriving DecidableEq

/-- The slice of the daemon `config` that `webHandler` and
`validateHTTPParams` read. `validIP` embeds the repository's IP-syntax
helper and `userRegexMatch` the configured `conf.userRegex.MatchString`;
both bodies live outside `src/cursed/web.go`, so they are carried as opaque
boolean predicates on strings. -/
structure config where
  ProxyUser : String
  ProxyPass : String
  UserHeader : String
  ForceCmd : Bool
  RequireClientIP : Bool
  dur : Int
  exts : List (String × String)
  validIP : String → Bool
  userRegexMatch : String → Bool

/-- The `certConfig` struct: the certificate descriptor handed to the
signer. Timestamps are integer instants. -/
structure certConfig where
  certType : Nat
  command : String
  extensions : List (String × String)
  keyID : String
  principals : List String
  srcAddr : String
  validAfter : Int
  validBefore : Int
deriving DecidableEq

/-- The incoming HTTP request as `webHandler` consumes it: the basic-auth
credentials (absent when `r.BasicAuth()` reports not-ok), the header map,
and the form values read by `r.PostFormValue`. -/
structure request where
  basicAuth : Option (String × String)
  headers : String → String
  bastionIP : String
  cmd : String
  key : String
  remoteUser : String
  userIP : String

/-- The handler's external collaborators, made explicit: the ssh parse
call, the replay store call `checkPubKeyAge` (returning the expired flag
and a possible error, exactly the Go pair), the signer `signPubKey`
partially applied to `conf.caSigner` (taking the raw key text and the
descriptor), the two successive `time.Now()` readings, and RFC 3339 time
rendering. -/
structure ExtCalls where
  parseAuthorizedKey : String → Option (List Nat)
  checkPubKeyAge : String → Bool × Option String
  signPubKey : String → certConfig → Except String (List Nat)
  t1 : Int
  t2 : Int
  fmtRFC3339 : Int → String

/-- The HTTP outcome `webHandler` writes back. -/
inductive HResult where
  | authorizationFailure
  | unauthorized
  | parseFailure
  | validationFailure (msg : String)
  | pubkeyTooOld
  | serverError
  | success (cert : List Nat)
deriving DecidableEq

/-- HTTP status code of each outcome, as `web.go` sets it. -/
def HResult.statusCode : HResult → Nat
  | .authorizationFailure => 401
  | .unauthorized => 401
  | .parseFailure => 400
  | .validationFailure _ => 400
  | .pubkeyTooOld => 422
  | .serverError => 500
  | .success _ => 200

/-- The handler's observable behaviour on one request: the HTTP result,
every `log.Printf` line in emission order, trace flags recording which
pipeline stages ran, and the fingerprint, key-id and certificate
descriptor when the run got far enough to compute them. -/
structure HOutput where
  result : HResult
  logs : List String
  paramsExtracted : Bool
  parseCalled : Bool
  validateCalled : Bool
  replayCalled : Bool
  signCalled : Bool
  fpOut : Option String
  keyIDOut : Option String
  descriptor : Option certConfig
deriving DecidableEq

/-- Building the `httpParams` struct from the request (lines 35–42 of
`web.go`): form values, plus the bastion user from the configured header. -/
def extractParams (r : request) (conf : config) : httpParams :=
  { bastionIP := r.bastionIP
    bastionUser := r.headers conf.UserHeader
    cmd := r.cmd
    key := r.key
    remoteUser := r.remoteUser
    userIP := r.userIP }

/-- `validateHTTPParams` (lines 105–136 of `web.go`): the first failing
check returns its reason; the second component collects the `log.Printf`
lines the function itself emits (only the invalid-userIP branch logs).
Byte length (`len` in Go) is `String.utf8ByteSize`. -/
def validateHTTPParams (p : httpParams) (conf : config) : Option String × List String :=
  if conf.ForceCmd && p.cmd == "" then
    (some "cmd missing from request", [])
  else if p.bastionIP == "" || !conf.validIP p.bastionIP then
    (some "bastionIP is invalid", [])
  else if p.bastionUser == "" then
    (some (conf.UserHeader ++ " missing from request"), [])
  else if 32 < p.bastionUser.utf8ByteSize || !conf.userRegexMatch p.bastionUser then
    (some "username is invalid", [])
  else if p.key == "" then
    (some "key missing from request", [])
  else if p.remoteUser == "" then
    (some "remoteUser missing from request", [])
  else if conf.RequireClientIP && !conf.validIP p.userIP then
    (some "invalid userIP", ["invalid userIP: |" ++ p.userIP ++ "|"])
  else
    (none, [])

/-- The key-id format string of line 60 of `web.go`. -/
def keyIDOf (user fromAddr cmd fp validTo : String) : String :=
  "user[" ++ user ++ "] from[" ++ fromAddr ++ "] command[" ++ cmd ++
    "] sshKey[" ++ fp ++ "] valid to[" ++ validTo ++ "]"

/-- The request log line of line 64 of `web.go`. -/
def requestLogOf (keyID : String) : String :=
  "Request: |" ++ keyID ++ "|"

/-- The key-id string `webHandler` computes after a successful parse
(lines 58–61): user from the configured header, the client `userIP` in the
`from` slot, the command, the MD5 fingerprint, and the formatted
`validBefore` instant (the second `time.Now()` reading plus `conf.dur`). -/
def keyIDFor (conf : config) (ext : ExtCalls) (p : httpParams) (pk : List Nat) : String :=
  keyIDOf p.bastionUser p.userIP p.cmd (fingerprintLegacyMD5 pk)
    (ext.fmtRFC3339 (ext.t2 + conf.dur))

/-- The `certConfig` value built at lines 83–92 of `web.go`. -/
def certConfigOf (conf : config) (ext : ExtCalls) (p : httpParams) (pk : List Nat) : certConfig :=
  { certType := UserCert
    command := p.cmd
    extensions := conf.exts
    keyID := keyIDFor conf ext p pk
    principals := [p.remoteUser]
    srcAddr := p.bastionIP
    validAfter := ext.t1
    validBefore := ext.t2 + conf.dur }

/-- The body of `webHandler` past the basic-auth gate (lines 34–103 of
`web.go`): the validity timestamps (`va` from the first `time.Now()`, `vb`
from the second plus `conf.dur`), key parse and MD5 fingerprint, key-id
construction, the request log, parameter validation, the key-age check
(only the boolean of the returned pair is consulted, exactly as in the
Go), descriptor construction, and signing. -/
def webHandlerAuthed (conf : config) (ext : ExtCalls) (p : httpParams) : HOutput :=
  match ext.parseAuthorizedKey p.key with
  | none =>
      { result := .parseFailure
        logs := ["Unable to parse authorized key |" ++ p.key ++ "|"]
        paramsExtracted := true, parseCalled := true, validateCalled := false
        replayCalled := false, signCalled := false
        fpOut := none, keyIDOut := none, descriptor := none }
  | some pk =>
      let fp := fingerprintLegacyMD5 pk
      let keyID := keyIDFor conf ext p pk
      let reqLog := requestLogOf keyID
      match validateHTTPParams p conf with
      | (some e, vlogs) =>
          let errMsg := "Param validation failure: " ++ e
          { result := .validationFailure errMsg
            logs := reqLog :: (vlogs ++ [errMsg])
            paramsExtracted := true, parseCalled := true, validateCalled := true
            replayCalled := false, signCalled := false
            fpOut := some fp, keyIDOut := some keyID, descriptor := none }
      | (none, _) =>
          let expired := (ext.checkPubKeyAge fp).1
          if expired then
            { result := .pubkeyTooOld, logs := [reqLog]
              paramsExtracted := true, parseCalled := true, validateCalled := true
              replayCalled := true, signCalled := false
              fpOut := some fp, keyIDOut := some keyID, descriptor := none }
          else
            let cc := certConfigOf conf ext p pk
            match ext.signPubKey p.key cc with
            | .error e =>
                { result := .serverError, logs := [reqLog, e]
                  paramsExtracted := true, parseCalled := true, validateCalled := true
                  replayCalled := true, signCalled := true
                  fpOut := some fp, keyIDOut := some keyID, descriptor := some cc }
            | .ok cert =>
                { result := .success cert, logs := [reqLog]
                  paramsExtracted := true, parseCalled := true, validateCalled := true
                  replayCalled := true, signCalled := true
                  fpOut := some fp, keyIDOut := some keyID, descriptor := some cc }

/-- `webHandler` (lines 21–103 of `web.go`): the basic-auth gate against
the proxy credentials (Go rejects when `user != conf.ProxyUser || pass !=
conf.ProxyPass`, stated here through the equivalent negated conjunction),
then parameter extraction and the rest of the pipeline. -/
def webHandler (conf : config) (ext : ExtCalls) (r : request) : HOutput :=
  match r.basicAuth with
  | none =>
      { result := .authorizationFailure, logs := []
        paramsExtracted := false, parseCalled := false, validateCalled := false
        replayCalled := false, signCalled := false
        fpOut := none, keyIDOut := none, descriptor := none }
  | some (user, pass) =>
      if !(user == conf.ProxyUser && pass == conf.ProxyPass) then
        { result := .unauthorized, logs := ["Invalid proxy credentials"]
          paramsExtracted := false, parseCalled := false, validateCalled := false
          replayCalled := false, signCalled := false
          fpOut := none, keyIDOut := none, descriptor := none }
      else
        webHandlerAuthed conf ext (extractParams r conf)

/-- Modelled from the spec: the body of `checkPubKeyAge` (the Replay
Guard) is not under `src/`; §4.2 defines it. A store maps each fingerprint
to its first-seen time; an unseen fingerprint is recorded and reported
fresh (not expired); a seen fingerprint is expired exactly when
`now - first_seen > maxAge`. The model raises no error. -/
def checkPubKeyAgeModel (store : List (String × Int)) (now maxAge : Int)
    (fp : String) : Bool × Option String :=
  match store.lookup fp with
  | none => (false, none)
  | some firstSeen => (decide (maxAge < now - firstSeen), none)


/-! ## Concrete fixtures for witnesses and counterexamples -/

/-- A concrete daemon configuration: forced command off, client IP not
required, one-hour lifetime. -/
def conf0 : config :=
  { ProxyUser := "proxy"
    ProxyPass := "secret"
    UserHeader := "X-Cursed-User"
    ForceCmd := false
    RequireClientIP := false
    dur := 3600
    exts := [("permit-pty", "")]
    validIP := fun s => s == "10.0.0.5" || s == "203.0.113.9"
    userRegexMatch := fun _ => true }

/-- `conf0` with the forced-command policy switched on. -/
def confForceCmd : config := { conf0 with ForceCmd := true }

/-- A concrete environment: one key parses (to the marshaled bytes
`[1, 2, 3]`), the replay store reports fresh with no error, signing
succeeds, and both clock reads agree. -/
def ext0 : ExtCalls :=
  { parseAuthorizedKey := fun s => if s == "ssh-ed25519 AAAAkey" then some [1, 2, 3] else none
    checkPubKeyAge := fun _ => (false, none)
    signPubKey := fun _ _ => .ok [9, 9]
    t1 := 1000
    t2 := 1000
    fmtRFC3339 := fun _ => "2026-01-01T00:00:00Z" }

/-- The spec's §8 example request: bastion 10.0.0.5, user alice via the
configured header, empty command, parsable key, remote principal deploy,
client 203.0.113.9, correct proxy credentials. -/
def req0 : request :=
  { basicAuth := some ("proxy", "secret")
    headers := fun h => if h == "X-Cursed-User" then "alice" else ""
    bastionIP := "10.0.0.5"
    cmd := ""
    key := "ssh-ed25519 AAAAkey"
    remoteUser := "deploy"
    userIP := "203.0.113.9" }

/-- `req0` with wrong proxy credentials. -/
def reqBadAuth : request := { req0 with basicAuth := some ("proxy", "wrong") }

/-- A request with the same key bytes as `req0` but different other
fields, for the fingerprint-determinism witness. -/
def reqSameKey : request :=
  { req0 with remoteUser := "ops", bastionIP := "203.0.113.9", userIP := "10.0.0.5" }

/-- The fingerprint of the fixture key's marshaled bytes. -/
def fp0 : String := fingerprintLegacyMD5 [1, 2, 3]

/-- The key-id the handler computes for `req0` under `ext0`. -/
def kid0 : String := keyIDOf "alice" "203.0.113.9" "" fp0 "2026-01-01T00:00:00Z"

/-- `ext0` with the replay store returning an error beside a false
expired flag. -/
def extReplayErr : ExtCalls :=
  { ext0 with checkPubKeyAge := fun _ => (false, some "replay store failure") }

/-- `ext0` with the replay store reporting the key expired. -/
def extExpired : ExtCalls :=
  { ext0 with checkPubKeyAge := fun _ => (true, none) }

/-- A one-entry replay store: the fixture fingerprint first seen at time 0. -/
def store0 : List (String × Int) := [(fp0, 0)]

/-- `ext0` with the replay store instantiated to the spec model over
`store0` at time 100 with a max age of 50. -/
def extAged : ExtCalls := { ext0 with checkPubKeyAge := checkPubKeyAgeModel store0 100 50 }

/-- The `httpParams` value `webHandler` builds from `req0` under `conf0`. -/
def p0 : httpParams := extractParams req0 conf0

/-! ## Check predicates of `validateHTTPParams`, for stating claim C6 -/

/-- Check (a): if forced-command policy is on, the command is non-empty. -/
def chkCmd (p : httpParams) (conf : config) : Bool :=
  !(conf.ForceCmd && p.cmd == "")

/-- Check (b): the bastion address is present and passes `validIP`. -/
def chkBastionIP (p : httpParams) (conf : config) : Bool :=
  !(p.bastionIP == "" || !conf.validIP p.bastionIP)

/-- Check (c), first half: the bastion user is present. -/
def chkUserPresent (p : httpParams) : Bool :=
  !(p.bastionUser == "")

/-- Check (c), second half: at most 32 bytes and matching the username
pattern. -/
def chkUserShape (p : httpParams) (conf : config) : Bool :=
  !(32 < p.bastionUser.utf8ByteSize || !conf.userRegexMatch p.bastionUser)

/-- Check (d): the key field is non-empty. -/
def chkKey (p : httpParams) : Bool :=
  !(p.key == "")

/-- Check (e): the remote principal is present. -/
def chkRemote (p : httpParams) : Bool :=
  !(p.remoteUser == "")

/-- Check (f): if policy requires a client IP, it passes `validIP`. -/
def chkUserIP (p : httpParams) (conf : config) : Bool :=
  !(conf.RequireClientIP && !conf.validIP p.userIP)

/-! ## Branch lemmas for `webHandler` -/

/-- With matching proxy credentials the handler runs the authed body on the
extracted parameters. -/
theorem webHandler_auth_ok (conf : config) (ext : ExtCalls) (r : request)
    (hauth : r.basicAuth = some (conf.ProxyUser, conf.ProxyPass)) :
    webHandler conf ext r = webHandlerAuthed conf ext (extractParams r conf) := by
  unfold webHandler
  rw [hauth]
  simp

/-- The parse-failure branch of the authed body. -/
theorem authed_parse_none (conf : config) (ext : ExtCalls) (p : httpParams)
    (hp : ext.parseAuthorizedKey p.key = none) :
    webHandlerAuthed conf ext p =
      { result := .parseFailure
        logs := ["Unable to parse authorized key |" ++ p.key ++ "|"]
        paramsExtracted := true, parseCalled := true, validateCalled := false
        replayCalled := false, signCalled := false
        fpOut := none, keyIDOut := none, descriptor := none } := by
  unfold webHandlerAuthed
  rw [hp]

/-- The validation-failure branch of the authed body. -/
theorem authed_val_fail (conf : config) (ext : ExtCalls) (p : httpParams)
    (pk : List Nat) (e : String) (vlogs : List String)
    (hp : ext.parseAuthorizedKey p.key = some pk)
    (hv : validateHTTPParams p conf = (some e, vlogs)) :
    webHandlerAuthed conf ext p =
      { result := .validationFailure ("Param validation failure: " ++ e)
        logs := requestLogOf (keyIDFor conf ext p pk) ::
          (vlogs ++ ["Param validation failure: " ++ e])
        paramsExtracted := true, parseCalled := true, validateCalled := true
        replayCalled := false, signCalled := false
        fpOut := some (fingerprintLegacyMD5 pk)
        keyIDOut := some (keyIDFor conf ext p pk), descriptor := none } := by
  unfold webHandlerAuthed
  rw [hp, hv]

/-- The key-too-old branch of the authed body. -/
theorem authed_expired (conf : config) (ext : ExtCalls) (p : httpParams)
    (pk : List Nat) (vlogs : List String)
    (hp : ext.parseAuthorizedKey p.key = some pk)
    (hv : validateHTTPParams p conf = (none, vlogs))
    (hx : (ext.checkPubKeyAge (fingerprintLegacyMD5 pk)).1 = true) :
    webHandlerAuthed conf ext p =
      { result := .pubkeyTooOld
        logs := [requestLogOf (keyIDFor conf ext p pk)]
        paramsExtracted := true, parseCalled := true, validateCalled := true
        replayCalled := true, signCalled := false
        fpOut := some (fingerprintLegacyMD5 pk)
        keyIDOut := some (keyIDFor conf ext p pk), descriptor := none } := by
  unfold webHandlerAuthed
  rw [hp, hv]
  simp [hx]

/-- The signing-failure branch of the authed body. -/
theorem authed_sign_err (conf : config) (ext : ExtCalls) (p : httpParams)
    (pk : List Nat) (vlogs : List String) (e : String)
    (hp : ext.parseAuthorizedKey p.key = some pk)
    (hv : validateHTTPParams p conf = (none, vlogs))
    (hx : (ext.checkPubKeyAge (fingerprintLegacyMD5 pk)).1 = false)
    (hs : ext.signPubKey p.key (certConfigOf conf ext p pk) = .error e) :
    webHandlerAuthed conf ext p =
      { result := .serverError
        logs := [requestLogOf (keyIDFor conf ext p pk), e]
        paramsExtracted := true, parseCalled := true, validateCalled := true
        replayCalled := true, signCalled := true
        fpOut := some (fingerprintLegacyMD5 pk)
        keyIDOut := some (keyIDFor conf ext p pk)
        descriptor := some (certConfigOf conf ext p pk) } := by
  unfold webHandlerAuthed
  rw [hp, hv]
  simp [hx, hs]

/-- The success branch of the authed body. -/
theorem authed_sign_ok (conf : config) (ext : ExtCalls) (p : httpParams)
    (pk : List Nat) (vlogs : List String) (cert : List Nat)
    (hp : ext.parseAuthorizedKey p.key = some pk)
    (hv : validateHTTPParams p conf = (none, vlogs))
    (hx : (ext.checkPubKeyAge (fingerprintLegacyMD5 pk)).1 = false)
    (hs : ext.signPubKey p.key (certConfigOf conf ext p pk) = .ok cert) :
    webHandlerAuthed conf ext p =
      { result := .success cert
        logs := [requestLogOf (keyIDFor conf ext p pk)]
        paramsExtracted := true, parseCalled := true, validateCalled := true
        replayCalled := true, signCalled := true
        fpOut := some (fingerprintLegacyMD5 pk)
        keyIDOut := some (keyIDFor conf ext p pk)
        descriptor := some (certConfigOf conf ext p pk) } := by
  unfold webHandlerAuthed
  rw [hp, hv]
  simp [hx, hs]

/-! ## Claims -/

/-- Claim C10: a request whose basic-auth credentials are absent, or do
not exactly match the configured proxy user and password, is answered
with an Unauthorized (401) error and no later pipeline stage runs: no
parameter extraction, no key parsing or fingerprinting, no validation, no
replay check, and no signing. -/
theorem C10_auth_gate (conf : config) (ext : ExtCalls) (r : request)
    (hbad : r.basicAuth = none ∨
      ∃ u pw, r.basicAuth = some (u, pw) ∧ ¬(u = conf.ProxyUser ∧ pw = conf.ProxyPass)) :
    (webHandler conf ext r).result.statusCode = 401 ∧
    (webHandler conf ext r).paramsExtracted = false ∧
    (webHandler conf ext r).parseCalled = false ∧
    (webHandler conf ext r).validateCalled = false ∧
    (webHandler conf ext r).replayCalled = false ∧
    (webHandler conf ext r).signCalled = false ∧
    (webHandler conf ext r).fpOut = none ∧
    (webHandler conf ext r).descriptor = none := by
  rcases hbad with h | ⟨u, pw, h, hne⟩
  · unfold webHandler
    rw [h]
    simp [HResult.statusCode]
  · have hb : (u == conf.ProxyUser && pw == conf.ProxyPass) = false := by
      cases hc : (u == conf.ProxyUser && pw == conf.ProxyPass)
      · rfl
      · exact absurd (by simpa [Bool.and_eq_true, beq_iff_eq] using hc) hne
    unfold webHandler
    rw [h]
    simp [hb, HResult.statusCode]

/-- Witness for C10: wrong proxy password on the fixture request. -/
theorem C10_auth_gate_witness :
    (webHandler conf0 ext0 reqBadAuth).result.statusCode = 401 ∧
    (webHandler conf0 ext0 reqBadAuth).paramsExtracted = false ∧
    (webHandler conf0 ext0 reqBadAuth).parseCalled = false ∧
    (webHandler conf0 ext0 reqBadAuth).validateCalled = false ∧
    (webHandler conf0 ext0 reqBadAuth).replayCalled = false ∧
    (webHandler conf0 ext0 reqBadAuth).signCalled = false ∧
    (webHandler conf0 ext0 reqBadAuth).fpOut = none ∧
    (webHandler conf0 ext0 reqBadAuth).descriptor = none :=
  C10_auth_gate conf0 ext0 reqBadAuth (Or.inr ⟨"proxy", "wrong", rfl, by decide⟩)

/-- Counterexample to claim C1: with forced-command policy on and an empty
command — a request missing a mandatory field — the handler does fail with
the validation failure, but the Fingerprinter has already been invoked
before that failure is returned (the key was parsed and its fingerprint
computed), contradicting the claim that no Fingerprinter call occurs. -/
theorem C1_counterexample :
    (webHandler confForceCmd ext0 req0).result =
      .validationFailure "Param validation failure: cmd missing from request" ∧
    (webHandler confForceCmd ext0 req0).parseCalled = true ∧
    (webHandler confForceCmd ext0 req0).fpOut = some fp0 := by
  decide

/-- Claim C1 as amended: a request that passes the proxy-auth gate and key
parsing but fails a validation check is answered with that validation
failure, and the replay check, descriptor construction and the Signer do
not run — however the Fingerprinter (key parse plus fingerprint) has
already run before validation. (A request whose key itself is missing
fails earlier, at key parsing, with a parse error rather than a
validation failure.) -/
theorem C1_validation_aborts (conf : config) (ext : ExtCalls) (r : request)
    (pk : List Nat) (e : String) (vlogs : List String)
    (hauth : r.basicAuth = some (conf.ProxyUser, conf.ProxyPass))
    (hp : ext.parseAuthorizedKey r.key = some pk)
    (hv : validateHTTPParams (extractParams r conf) conf = (some e, vlogs)) :
    (webHandler conf ext r).result = .validationFailure ("Param validation failure: " ++ e) ∧
    (webHandler conf ext r).signCalled = false ∧
    (webHandler conf ext r).replayCalled = false ∧
    (webHandler conf ext r).descriptor = none ∧
    (webHandler conf ext r).parseCalled = true := by
  rw [webHandler_auth_ok conf ext r hauth,
    authed_val_fail conf ext (extractParams r conf) pk e vlogs hp hv]
  exact ⟨rfl, rfl, rfl, rfl, rfl⟩

/-- Witness for the amended C1 at the forced-command fixture. -/
theorem C1_validation_aborts_witness :
    (webHandler confForceCmd ext0 req0).result =
      .validationFailure "Param validation failure: cmd missing from request" ∧
    (webHandler confForceCmd ext0 req0).signCalled = false ∧
    (webHandler confForceCmd ext0 req0).replayCalled = false ∧
    (webHandler confForceCmd ext0 req0).descriptor = none ∧
    (webHandler confForceCmd ext0 req0).parseCalled = true :=
  C1_validation_aborts confForceCmd ext0 req0 [1, 2, 3]
    "cmd missing from request" [] rfl rfl (by decide)

/-- Claim C7: every request that reaches descriptor construction gets a
descriptor whose principal list is exactly the single requested remote
principal and whose source-address restriction is the bastion address
from the request (not the client's address). -/
theorem C7_descriptor (conf : config) (ext : ExtCalls) (r : request)
    (pk : List Nat) (vlogs : List String)
    (hauth : r.basicAuth = some (conf.ProxyUser, conf.ProxyPass))
    (hp : ext.parseAuthorizedKey r.key = some pk)
    (hv : validateHTTPParams (extractParams r conf) conf = (none, vlogs))
    (hx : (ext.checkPubKeyAge (fingerprintLegacyMD5 pk)).1 = false) :
    (webHandler conf ext r).descriptor.map certConfig.principals = some [r.remoteUser] ∧
    (webHandler conf ext r).descriptor.map certConfig.srcAddr = some r.bastionIP := by
  rw [webHandler_auth_ok conf ext r hauth]
  cases hs : ext.signPubKey r.key (certConfigOf conf ext (extractParams r conf) pk) with
  | error e =>
      rw [authed_sign_err conf ext (extractParams r conf) pk vlogs e hp hv hx hs]
      exact ⟨rfl, rfl⟩
  | ok cert =>
      rw [authed_sign_ok conf ext (extractParams r conf) pk vlogs cert hp hv hx hs]
      exact ⟨rfl, rfl⟩

/-- Witness for C7: the spec's §8 example — principals exactly
`["deploy"]`, source restriction the bastion's `10.0.0.5`. -/
theorem C7_descriptor_witness :
    (webHandler conf0 ext0 req0).descriptor.map certConfig.principals = some ["deploy"] ∧
    (webHandler conf0 ext0 req0).descriptor.map certConfig.srcAddr = some "10.0.0.5" :=
  C7_descriptor conf0 ext0 req0 [1, 2, 3] [] rfl rfl (by decide) rfl

/-- Claim C8: for every request that reaches descriptor construction,
valid-from is the first clock reading and valid-to is the second clock
reading plus the configured lifetime (so the window is `[now, now+dur)`
up to the skew between the two reads); with a monotone clock and a
positive configured lifetime, valid-to is strictly greater than
valid-from; and the window's width minus the configured lifetime is
exactly the clock skew — in particular no user-controlled request field
enters it. -/
theorem C8_validity (conf : config) (ext : ExtCalls) (r : request)
    (pk : List Nat) (vlogs : List String)
    (hauth : r.basicAuth = some (conf.ProxyUser, conf.ProxyPass))
    (hp : ext.parseAuthorizedKey r.key = some pk)
    (hv : validateHTTPParams (extractParams r conf) conf = (none, vlogs))
    (hx : (ext.checkPubKeyAge (fingerprintLegacyMD5 pk)).1 = false)
    (hmono : ext.t1 ≤ ext.t2) (hdur : 0 < conf.dur) :
    (webHandler conf ext r).descriptor.map certConfig.validAfter = some ext.t1 ∧
    (webHandler conf ext r).descriptor.map certConfig.validBefore = some (ext.t2 + conf.dur) ∧
    ((webHandler conf ext r).descriptor.map fun cc =>
      decide (cc.validAfter < cc.validBefore)) = some true ∧
    ((webHandler conf ext r).descriptor.map fun cc =>
      cc.validBefore - cc.validAfter - conf.dur) = some (ext.t2 - ext.t1) := by
  rw [webHandler_auth_ok conf ext r hauth]
  have hgoal : ∀ o : HOutput, o.descriptor = some (certConfigOf conf ext (extractParams r conf) pk) →
      o.descriptor.map certConfig.validAfter = some ext.t1 ∧
      o.descriptor.map certConfig.validBefore = some (ext.t2 + conf.dur) ∧
      (o.descriptor.map fun cc => decide (cc.validAfter < cc.validBefore)) = some true ∧
      (o.descriptor.map fun cc => cc.validBefore - cc.validAfter - conf.dur) = some (ext.t2 - ext.t1) := by
    intro o ho
    rw [ho]
    refine ⟨rfl, rfl, ?_, ?_⟩
    · simp [certConfigOf]
      omega
    · simp [certConfigOf]
      omega
  cases hs : ext.signPubKey r.key (certConfigOf conf ext (extractParams r conf) pk) with
  | error e =>
      exact hgoal _ (by
        rw [authed_sign_err conf ext (extractParams r conf) pk vlogs e hp hv hx hs])
  | ok cert =>
      exact hgoal _ (by
        rw [authed_sign_ok conf ext (extractParams r conf) pk vlogs cert hp hv hx hs])

/-- Witness for C8 at the fixture: window `[1000, 4600)` with lifetime
3600 and zero skew. -/
theorem C8_validity_witness :
    (webHandler conf0 ext0 req0).descriptor.map certConfig.validAfter = some 1000 ∧
    (webHandler conf0 ext0 req0).descriptor.map certConfig.validBefore = some 4600 ∧
    ((webHandler conf0 ext0 req0).descriptor.map fun cc =>
      decide (cc.validAfter < cc.validBefore)) = some true ∧
    ((webHandler conf0 ext0 req0).descriptor.map fun cc =>
      cc.validBefore - cc.validAfter - conf0.dur) = some 0 :=
  C8_validity conf0 ext0 req0 [1, 2, 3] [] rfl rfl (by decide) rfl
    (by decide) (by decide)

/-- Claim C5: a request whose fingerprint's age exceeds the configured
threshold — with the replay store behaving as the spec's Replay Guard —
is rejected with the key-too-old (422) answer and the Signer is not
called. The `checkPubKeyAge` body is modelled from the spec (its code is
not under `src/`). -/
theorem C5_replay_expired (conf : config) (ext : ExtCalls) (r : request)
    (pk : List Nat) (vlogs : List String)
    (store : List (String × Int)) (now maxAge t0 : Int)
    (hauth : r.basicAuth = some (conf.ProxyUser, conf.ProxyPass))
    (hp : ext.parseAuthorizedKey r.key = some pk)
    (hv : validateHTTPParams (extractParams r conf) conf = (none, vlogs))
    (hmodel : ext.checkPubKeyAge = checkPubKeyAgeModel store now maxAge)
    (hseen : store.lookup (fingerprintLegacyMD5 pk) = some t0)
    (hage : maxAge < now - t0) :
    (webHandler conf ext r).result = .pubkeyTooOld ∧
    (webHandler conf ext r).result.statusCode = 422 ∧
    (webHandler conf ext r).signCalled = false ∧
    (webHandler conf ext r).descriptor = none := by
  have hx : (ext.checkPubKeyAge (fingerprintLegacyMD5 pk)).1 = true := by
    rw [hmodel]
    unfold checkPubKeyAgeModel
    rw [hseen]
    simpa using hage
  rw [webHandler_auth_ok conf ext r hauth,
    authed_expired conf ext (extractParams r conf) pk vlogs hp hv hx]
  exact ⟨rfl, rfl, rfl, rfl⟩

/-- Witness for C5: the fixture key first seen at time 0, re-submitted at
time 100 with a max age of 50. -/
theorem C5_replay_expired_witness :
    (webHandler conf0 extAged req0).result = .pubkeyTooOld ∧
    (webHandler conf0 extAged req0).result.statusCode = 422 ∧
    (webHandler conf0 extAged req0).signCalled = false ∧
    (webHandler conf0 extAged req0).descriptor = none :=
  C5_replay_expired conf0 extAged req0 [1, 2, 3] [] store0 100 50 0
    rfl rfl rfl rfl (by decide) (by decide)

/-- Counterexample to claim C9: for the spec's own example request the
key-id embeds the originating client address `203.0.113.9` in its `from`
slot while the certificate's source restriction is the bastion address
`10.0.0.5` — the address embedded in the key-id is not the address the
certificate is restricted to. -/
theorem C9_counterexample :
    (webHandler conf0 ext0 req0).keyIDOut =
      some (keyIDOf "alice" "203.0.113.9" "" fp0 "2026-01-01T00:00:00Z") ∧
    (webHandler conf0 ext0 req0).descriptor.map certConfig.srcAddr = some "10.0.0.5" ∧
    keyIDOf "alice" "203.0.113.9" "" fp0 "2026-01-01T00:00:00Z" ≠
      keyIDOf "alice" "10.0.0.5" "" fp0 "2026-01-01T00:00:00Z" := by
  decide

/-- Claim C9 as amended: the key-id is built by formatting the
header-asserted user, the originating client address (`userIP`, not the
certificate's source address), the command, the MD5 fingerprint, and the
formatted expiry instant; the certificate's source restriction is the
bastion address, so the two addresses differ whenever the client and
bastion addresses differ. -/
theorem C9_keyid (conf : config) (ext : ExtCalls) (r : request)
    (pk : List Nat) (vlogs : List String)
    (hauth : r.basicAuth = some (conf.ProxyUser, conf.ProxyPass))
    (hp : ext.parseAuthorizedKey r.key = some pk)
    (hv : validateHTTPParams (extractParams r conf) conf = (none, vlogs))
    (hx : (ext.checkPubKeyAge (fingerprintLegacyMD5 pk)).1 = false) :
    (webHandler conf ext r).keyIDOut =
      some (keyIDOf (r.headers conf.UserHeader) r.userIP r.cmd
        (fingerprintLegacyMD5 pk) (ext.fmtRFC3339 (ext.t2 + conf.dur))) ∧
    (webHandler conf ext r).descriptor.map certConfig.srcAddr = some r.bastionIP := by
  rw [webHandler_auth_ok conf ext r hauth]
  cases hs : ext.signPubKey r.key (certConfigOf conf ext (extractParams r conf) pk) with
  | error e =>
      rw [authed_sign_err conf ext (extractParams r conf) pk vlogs e hp hv hx hs]
      exact ⟨rfl, rfl⟩
  | ok cert =>
      rw [authed_sign_ok conf ext (extractParams r conf) pk vlogs cert hp hv hx hs]
      exact ⟨rfl, rfl⟩

/-- Witness for the amended C9 at the fixture request. -/
theorem C9_keyid_witness :
    (webHandler conf0 ext0 req0).keyIDOut =
      some (keyIDOf (req0.headers conf0.UserHeader) req0.userIP req0.cmd
        (fingerprintLegacyMD5 [1, 2, 3]) (ext0.fmtRFC3339 (ext0.t2 + conf0.dur))) ∧
    (webHandler conf0 ext0 req0).descriptor.map certConfig.srcAddr = some req0.bastionIP :=
  C9_keyid conf0 ext0 req0 [1, 2, 3] [] rfl rfl (by decide) rfl

/-- Counterexample to claim C2: the fingerprint the handler computes is
the legacy MD5 colon-hex digest of the key's canonical encoding, not a
modern digest. The first two conjuncts pin this file's `md5` to RFC 1321
MD5 by its published test vectors; the last two exhibit the handler's
fingerprint for the fixture request as exactly that MD5 digest of the
parsed key bytes `[1, 2, 3]`. -/
theorem C2_counterexample :
    hexBytes (md5 (strBytes "abc")) = "900150983cd24fb0d6963f7d28e17f72" ∧
    hexBytes (md5 (strBytes "")) = "d41d8cd98f00b204e9800998ecf8427e" ∧
    (webHandler conf0 ext0 req0).fpOut =
      some "52:89:df:73:7d:f5:73:26:fc:dd:22:59:7a:fb:1f:ac" ∧
    hexBytes (md5 [1, 2, 3]) = "5289df737df57326fcdd22597afb1fac" := by
  decide

/-- Claim C2 as amended: the fingerprint is the legacy MD5 colon-hex
digest of the parsed key's canonical encoding, and it is deterministic —
any authenticated request's fingerprint is a pure function of its key
text, so two requests with byte-identical keys get identical
fingerprints. -/
theorem C2_fingerprint (conf : config) (ext : ExtCalls) (r1 r2 : request)
    (h1 : r1.basicAuth = some (conf.ProxyUser, conf.ProxyPass))
    (h2 : r2.basicAuth = some (conf.ProxyUser, conf.ProxyPass))
    (hk : r1.key = r2.key) :
    (webHandler conf ext r1).fpOut = (ext.parseAuthorizedKey r1.key).map fingerprintLegacyMD5 ∧
    (webHandler conf ext r1).fpOut = (webHandler conf ext r2).fpOut := by
  have hfp : ∀ r : request, r.basicAuth = some (conf.ProxyUser, conf.ProxyPass) →
      (webHandler conf ext r).fpOut = (ext.parseAuthorizedKey r.key).map fingerprintLegacyMD5 := by
    intro r hr
    rw [webHandler_auth_ok conf ext r hr]
    cases hp : ext.parseAuthorizedKey r.key with
    | none =>
        rw [authed_parse_none conf ext (extractParams r conf) hp]
        simp [hp]
    | some pk =>
        rcases hv : validateHTTPParams (extractParams r conf) conf with ⟨oe, vl⟩
        cases oe with
        | some e =>
            rw [authed_val_fail conf ext (extractParams r conf) pk e vl hp hv]
            simp [hp]
        | none =>
            cases hx : (ext.checkPubKeyAge (fingerprintLegacyMD5 pk)).1 with
            | true =>
                rw [authed_expired conf ext (extractParams r conf) pk vl hp hv hx]
                simp [hp]
            | false =>
                cases hs : ext.signPubKey r.key (certConfigOf conf ext (extractParams r conf) pk) with
                | error e =>
                    rw [authed_sign_err conf ext (extractParams r conf) pk vl e hp hv hx hs]
                    simp [hp]
                | ok cert =>
                    rw [authed_sign_ok conf ext (extractParams r conf) pk vl cert hp hv hx hs]
                    simp [hp]
  refine ⟨hfp r1 h1, ?_⟩
  rw [hfp r1 h1, hfp r2 h2, hk]

/-- Witness for the amended C2: two fixture requests sharing only the key
bytes get the same fingerprint, the MD5 digest of the parsed key. -/
theorem C2_fingerprint_witness :
    (webHandler conf0 ext0 req0).fpOut =
      (ext0.parseAuthorizedKey req0.key).map fingerprintLegacyMD5 ∧
    (webHandler conf0 ext0 req0).fpOut = (webHandler conf0 ext0 reqSameKey).fpOut :=
  C2_fingerprint conf0 ext0 req0 reqSameKey rfl rfl rfl

/-- Counterexample to claim C3: a request that fails validation (so no
signing occurs) nevertheless gets the audit log line containing its
key-id — the line is emitted before validation and signing, not after a
successful signing. -/
theorem C3_counterexample :
    (webHandler confForceCmd ext0 req0).result =
      .validationFailure "Param validation failure: cmd missing from request" ∧
    (webHandler confForceCmd ext0 req0).signCalled = false ∧
    (webHandler confForceCmd ext0 req0).logs =
      [requestLogOf kid0, "Param validation failure: cmd missing from request"] := by
  decide

/-- Claim C3 as amended: one log line containing the key-id is emitted as
the first log line for every request that passes proxy auth and key
parsing — before validation, replay check and signing, and also for
requests that subsequently fail; on the success path it is the only log
line; requests rejected at the auth gate or at key parsing emit no
key-id line. -/
theorem C3_audit_line (conf : config) (ext : ExtCalls) (r : request) :
    (∀ pk kid, r.basicAuth = some (conf.ProxyUser, conf.ProxyPass) →
      ext.parseAuthorizedKey r.key = some pk →
      (webHandler conf ext r).keyIDOut = some kid →
      (webHandler conf ext r).logs.head? = some (requestLogOf kid)) ∧
    (∀ pk kid cert, r.basicAuth = some (conf.ProxyUser, conf.ProxyPass) →
      ext.parseAuthorizedKey r.key = some pk →
      (webHandler conf ext r).keyIDOut = some kid →
      (webHandler conf ext r).result = .success cert →
      (webHandler conf ext r).logs = [requestLogOf kid]) ∧
    (r.basicAuth = some (conf.ProxyUser, conf.ProxyPass) →
      ext.parseAuthorizedKey r.key = none →
      (webHandler conf ext r).logs = ["Unable to parse authorized key |" ++ r.key ++ "|"]) ∧
    (r.basicAuth = none → (webHandler conf ext r).logs = []) := by
  refine ⟨?_, ?_, ?_, ?_⟩
  · intro pk kid hauth hp hkid
    rw [webHandler_auth_ok conf ext r hauth] at hkid ⊢
    rcases hv : validateHTTPParams (extractParams r conf) conf with ⟨oe, vl⟩
    cases oe with
    | some e =>
        rw [authed_val_fail conf ext (extractParams r conf) pk e vl hp hv] at hkid ⊢
        simp only [Option.some.injEq] at hkid
        subst hkid
        rfl
    | none =>
        cases hx : (ext.checkPubKeyAge (fingerprintLegacyMD5 pk)).1 with
        | true =>
            rw [authed_expired conf ext (extractParams r conf) pk vl hp hv hx] at hkid ⊢
            simp only [Option.some.injEq] at hkid
            subst hkid
            rfl
        | false =>
            cases hs : ext.signPubKey r.key (certConfigOf conf ext (extractParams r conf) pk) with
            | error e =>
                rw [authed_sign_err conf ext (extractParams r conf) pk vl e hp hv hx hs] at hkid ⊢
                simp only [Option.some.injEq] at hkid
                subst hkid
                rfl
            | ok cert =>
                rw [authed_sign_ok conf ext (extractParams r conf) pk vl cert hp hv hx hs] at hkid ⊢
                simp only [Option.some.injEq] at hkid
                subst hkid
                rfl
  · intro pk kid cert hauth hp hkid hres
    rw [webHandler_auth_ok conf ext r hauth] at hkid hres ⊢
    rcases hv : validateHTTPParams (extractParams r conf) conf with ⟨oe, vl⟩
    cases oe with
    | some e =>
        rw [authed_val_fail conf ext (extractParams r conf) pk e vl hp hv] at hres
        exact absurd hres (by simp)
    | none =>
        cases hx : (ext.checkPubKeyAge (fingerprintLegacyMD5 pk)).1 with
        | true =>
            rw [authed_expired conf ext (extractParams r conf) pk vl hp hv hx] at hres
            exact absurd hres (by simp)
        | false =>
            cases hs : ext.signPubKey r.key (certConfigOf conf ext (extractParams r conf) pk) with
            | error e =>
                rw [authed_sign_err conf ext (extractParams r conf) pk vl e hp hv hx hs] at hres
                exact absurd hres (by simp)
            | ok c =>
                rw [authed_sign_ok conf ext (extractParams r conf) pk vl c hp hv hx hs] at hkid ⊢
                simp only [Option.some.injEq] at hkid
                subst hkid
                rfl
  · intro hauth hp
    rw [webHandler_auth_ok conf ext r hauth,
      authed_parse_none conf ext (extractParams r conf) hp]
    rfl
  · intro h
    unfold webHandler
    rw [h]

/-- Witness for the amended C3: on the fixture request the first log line
is the request line containing the key-id. -/
theorem C3_audit_line_witness :
    (webHandler conf0 ext0 req0).logs.head? = some (requestLogOf kid0) :=
  (C3_audit_line conf0 ext0 req0).1 [1, 2, 3] kid0 rfl rfl (by decide)

/-- Counterexample to claim C4: an error returned by `checkPubKeyAge` is
silently ignored — the handler's entire output (result, every log line,
all trace state) is byte-identical whether the replay check returns an
error or not — and the key-too-old rejection itself is returned with no
failure log line (only the request line). -/
theorem C4_counterexample :
    webHandler conf0 extReplayErr req0 = webHandler conf0 ext0 req0 ∧
    (extReplayErr.checkPubKeyAge fp0).2 = some "replay store failure" ∧
    (ext0.checkPubKeyAge fp0).2 = none ∧
    (webHandler conf0 extExpired req0).result = .pubkeyTooOld ∧
    (webHandler conf0 extExpired req0).logs = [requestLogOf kid0] := by
  decide

/-- Claim C4 as amended: parse, validation and signing failures are each
logged, tagged with their stage (the parse line, the
`Param validation failure:` line as the final log line, the signer's
error line); but the key-too-old rejection produces no failure log line,
and an error returned by the replay-age check alongside a false expired
flag is silently ignored — the handler's output is invariant under
replacing that error component. -/
theorem C4_failure_logging (conf : config) (ext : ExtCalls) (r : request) :
    (∀ efun : String → Option String,
      webHandler conf
        { ext with checkPubKeyAge := fun s => ((ext.checkPubKeyAge s).1, efun s) } r =
        webHandler conf ext r) ∧
    (∀ pk vl kid, r.basicAuth = some (conf.ProxyUser, conf.ProxyPass) →
      ext.parseAuthorizedKey r.key = some pk →
      validateHTTPParams (extractParams r conf) conf = (none, vl) →
      (ext.checkPubKeyAge (fingerprintLegacyMD5 pk)).1 = true →
      (webHandler conf ext r).keyIDOut = some kid →
      (webHandler conf ext r).logs = [requestLogOf kid]) ∧
    (∀ pk e vl, r.basicAuth = some (conf.ProxyUser, conf.ProxyPass) →
      ext.parseAuthorizedKey r.key = some pk →
      validateHTTPParams (extractParams r conf) conf = (some e, vl) →
      (webHandler conf ext r).logs =
        requestLogOf (keyIDFor conf ext (extractParams r conf) pk) ::
          (vl ++ ["Param validation failure: " ++ e])) ∧
    (∀ pk vl e, r.basicAuth = some (conf.ProxyUser, conf.ProxyPass) →
      ext.parseAuthorizedKey r.key = some pk →
      validateHTTPParams (extractParams r conf) conf = (none, vl) →
      (ext.checkPubKeyAge (fingerprintLegacyMD5 pk)).1 = false →
      ext.signPubKey r.key (certConfigOf conf ext (extractParams r conf) pk) = .error e →
      (webHandler conf ext r).logs =
        [requestLogOf (keyIDFor conf ext (extractParams r conf) pk), e]) := by
  refine ⟨?_, ?_, ?_, ?_⟩
  · intro efun
    rfl
  · intro pk vl kid hauth hp hv hx hkid
    rw [webHandler_auth_ok conf ext r hauth] at hkid ⊢
    rw [authed_expired conf ext (extractParams r conf) pk vl hp hv hx] at hkid ⊢
    simp only [Option.some.injEq] at hkid
    subst hkid
    rfl
  · intro pk e vl hauth hp hv
    rw [webHandler_auth_ok conf ext r hauth,
      authed_val_fail conf ext (extractParams r conf) pk e vl hp hv]
  · intro pk vl e hauth hp hv hx hs
    rw [webHandler_auth_ok conf ext r hauth,
      authed_sign_err conf ext (extractParams r conf) pk vl e hp hv hx hs]

/-- Witness for the amended C4: the fixture's expired rejection carries
only the request log line. -/
theorem C4_failure_logging_witness :
    (webHandler conf0 extExpired req0).logs = [requestLogOf kid0] :=
  (C4_failure_logging conf0 extExpired req0).2.1 [1, 2, 3] [] kid0
    rfl rfl rfl rfl (by decide)

/-- First-failure lemma for check (a): forced command missing. -/
theorem validate_cmd_fail (p : httpParams) (conf : config) :
    chkCmd p conf = false →
    (validateHTTPParams p conf).1 = some "cmd missing from request" := by
  intro h
  unfold chkCmd at h
  unfold validateHTTPParams
  split_ifs <;> simp_all

/-- First-failure lemma for check (b): bastion address invalid. -/
theorem validate_bastion_fail (p : httpParams) (conf : config) :
    chkCmd p conf = true → chkBastionIP p conf = false →
    (validateHTTPParams p conf).1 = some "bastionIP is invalid" := by
  intro h1 h2
  unfold chkCmd at h1
  unfold chkBastionIP at h2
  unfold validateHTTPParams
  split_ifs <;> simp_all

/-- First-failure lemma for check (c), presence half: bastion user absent. -/
theorem validate_user_missing (p : httpParams) (conf : config) :
    chkCmd p conf = true → chkBastionIP p conf = true → chkUserPresent p = false →
    (validateHTTPParams p conf).1 = some (conf.UserHeader ++ " missing from request") := by
  intro h1 h2 h3
  unfold chkCmd at h1
  unfold chkBastionIP at h2
  unfold chkUserPresent at h3
  unfold validateHTTPParams
  split_ifs <;> simp_all

/-- First-failure lemma for check (c), shape half: length or pattern. -/
theorem validate_user_invalid (p : httpParams) (conf : config) :
    chkCmd p conf = true → chkBastionIP p conf = true → chkUserPresent p = true →
    chkUserShape p conf = false →
    (validateHTTPParams p conf).1 = some "username is invalid" := by
  intro h1 h2 h3 h4
  unfold chkCmd at h1
  unfold chkBastionIP at h2
  unfold chkUserPresent at h3
  unfold chkUserShape at h4
  unfold validateHTTPParams
  split_ifs <;> simp_all

/-- First-failure lemma for check (d): key absent. -/
theorem validate_key_missing (p : httpParams) (conf : config) :
    chkCmd p conf = true → chkBastionIP p conf = true → chkUserPresent p = true →
    chkUserShape p conf = true → chkKey p = false →
    (validateHTTPParams p conf).1 = some "key missing from request" := by
  intro h1 h2 h3 h4 h5
  unfold chkCmd at h1
  unfold chkBastionIP at h2
  unfold chkUserPresent at h3
  unfold chkUserShape at h4
  unfold chkKey at h5
  unfold validateHTTPParams
  split_ifs <;> simp_all

/-- First-failure lemma for check (e): remote principal absent. -/
theorem validate_remote_missing (p : httpParams) (conf : config) :
    chkCmd p conf = true → chkBastionIP p conf = true → chkUserPresent p = true →
    chkUserShape p conf = true → chkKey p = true → chkRemote p = false →
    (validateHTTPParams p conf).1 = some "remoteUser missing from request" := by
  intro h1 h2 h3 h4 h5 h6
  unfold chkCmd at h1
  unfold chkBastionIP at h2
  unfold chkUserPresent at h3
  unfold chkUserShape at h4
  unfold chkKey at h5
  unfold chkRemote at h6
  unfold validateHTTPParams
  split_ifs <;> simp_all

/-- First-failure lemma for check (f): required client IP invalid. -/
theorem validate_userip_fail (p : httpParams) (conf : config) :
    chkCmd p conf = true → chkBastionIP p conf = true → chkUserPresent p = true →
    chkUserShape p conf = true → chkKey p = true → chkRemote p = true →
    chkUserIP p conf = false →
    (validateHTTPParams p conf).1 = some "invalid userIP" := by
  intro h1 h2 h3 h4 h5 h6 h7
  unfold chkCmd at h1
  unfold chkBastionIP at h2
  unfold chkUserPresent at h3
  unfold chkUserShape at h4
  unfold chkKey at h5
  unfold chkRemote at h6
  unfold chkUserIP at h7
  unfold validateHTTPParams
  split_ifs <;> simp_all

/-- Success lemma: all checks passing yields no error. -/
theorem validate_ok (p : httpParams) (conf : config) :
    chkCmd p conf = true → chkBastionIP p conf = true → chkUserPresent p = true →
    chkUserShape p conf = true → chkKey p = true → chkRemote p = true →
    chkUserIP p conf = true →
    (validateHTTPParams p conf).1 = none := by
  intro h1 h2 h3 h4 h5 h6 h7
  unfold chkCmd at h1
  unfold chkBastionIP at h2
  unfold chkUserPresent at h3
  unfold chkUserShape at h4
  unfold chkKey at h5
  unfold chkRemote at h6
  unfold chkUserIP at h7
  unfold validateHTTPParams
  split_ifs <;> simp_all

/-- Claim C6: `validateHTTPParams` succeeds iff all policy checks pass,
and otherwise returns at the first failing check, in the order (a) forced
command, (b) bastion address, (c) bastion user (presence, then length and
pattern), (d) key presence, (e) remote principal presence, (f) client IP
when required — each with its specific reason; in particular forced
command on with an empty command yields `cmd missing from request`. (The
function is pure: it returns a value and log lines and cannot mutate the
request.) -/
theorem C6_validate (p : httpParams) (conf : config) :
    ((validateHTTPParams p conf).1 = none ↔
      (chkCmd p conf && chkBastionIP p conf && chkUserPresent p && chkUserShape p conf &&
        chkKey p && chkRemote p && chkUserIP p conf) = true) ∧
    (chkCmd p conf = false →
      (validateHTTPParams p conf).1 = some "cmd missing from request") ∧
    (chkCmd p conf = true → chkBastionIP p conf = false →
      (validateHTTPParams p conf).1 = some "bastionIP is invalid") ∧
    (chkCmd p conf = true → chkBastionIP p conf = true → chkUserPresent p = false →
      (validateHTTPParams p conf).1 = some (conf.UserHeader ++ " missing from request")) ∧
    (chkCmd p conf = true → chkBastionIP p conf = true → chkUserPresent p = true →
      chkUserShape p conf = false →
      (validateHTTPParams p conf).1 = some "username is invalid") ∧
    (chkCmd p conf = true → chkBastionIP p conf = true → chkUserPresent p = true →
      chkUserShape p conf = true → chkKey p = false →
      (validateHTTPParams p conf).1 = some "key missing from request") ∧
    (chkCmd p conf = true → chkBastionIP p conf = true → chkUserPresent p = true →
      chkUserShape p conf = true → chkKey p = true → chkRemote p = false →
      (validateHTTPParams p conf).1 = some "remoteUser missing from request") ∧
    (chkCmd p conf = true → chkBastionIP p conf = true → chkUserPresent p = true →
      chkUserShape p conf = true → chkKey p = true → chkRemote p = true →
      chkUserIP p conf = false →
      (validateHTTPParams p conf).1 = some "invalid userIP") := by
  refine ⟨?_, validate_cmd_fail p conf, validate_bastion_fail p conf,
    validate_user_missing p conf, validate_user_invalid p conf,
    validate_key_missing p conf, validate_remote_missing p conf,
    validate_userip_fail p conf⟩
  constructor
  · intro h
    cases hc1 : chkCmd p conf
    · rw [validate_cmd_fail p conf hc1] at h; cases h
    cases hc2 : chkBastionIP p conf
    · rw [validate_bastion_fail p conf hc1 hc2] at h; cases h
    cases hc3 : chkUserPresent p
    · rw [validate_user_missing p conf hc1 hc2 hc3] at h; cases h
    cases hc4 : chkUserShape p conf
    · rw [validate_user_invalid p conf hc1 hc2 hc3 hc4] at h; cases h
    cases hc5 : chkKey p
    · rw [validate_key_missing p conf hc1 hc2 hc3 hc4 hc5] at h; cases h
    cases hc6 : chkRemote p
    · rw [validate_remote_missing p conf hc1 hc2 hc3 hc4 hc5 hc6] at h; cases h
    cases hc7 : chkUserIP p conf
    · rw [validate_userip_fail p conf hc1 hc2 hc3 hc4 hc5 hc6 hc7] at h; cases h
    simp [hc1, hc2, hc3, hc4, hc5, hc6, hc7]
  · intro h
    simp only [Bool.and_eq_true] at h
    exact validate_ok p conf h.1.1.1.1.1.1 h.1.1.1.1.1.2 h.1.1.1.1.2 h.1.1.1.2
      h.1.1.2 h.1.2 h.2

/-- Witness for C6: forced command on with empty command fails with the
pinned reason; the spec's example request passes every check. -/
theorem C6_validate_witness :
    (validateHTTPParams p0 confForceCmd).1 = some "cmd missing from request" ∧
    (validateHTTPParams p0 conf0).1 = none :=
  ⟨(C6_validate p0 confForceCmd).2.1 (by decide),
   ((C6_validate p0 conf0).1).mpr (by decide)⟩
